import Mathlib

/-!
Formal model of the Meshy API nodes (`comfy_api_nodes/nodes_meshy.py` and
`comfy_api_nodes/apis/meshy.py`): request models with their pydantic
constraints, the per-node `execute` routines with network effects reified as
an explicit call trace, and the external submit/poll helpers modelled from
the specification where their code is not part of the provided sources.
-/

namespace Meshy

/-- An opaque image tensor (`Input.Image`); only identity matters here. -/
structure Image where
  id : Nat
deriving DecidableEq, Repr

/-- `InputShouldRemesh` (apis/meshy.py): the dict captured by the
`should_remesh` dynamic combo.  `topology` / `target_polycount` are `none`
when the corresponding key is absent from the captured dict (the UI omits
them when the "false" option is selected); the code reads them with
`.get(key, None)`. -/
structure InputShouldRemesh where
  should_remesh : String
  topology : Option String
  target_polycount : Option Int
deriving DecidableEq, Repr

/-- `InputShouldTexture` (apis/meshy.py): the dict captured by the
`should_texture` dynamic combo.  `enable_pbr` is read with `.get`, hence
`Option`; `texture_prompt` is indexed directly (only inside the
`should_texture == "true"` branch); `texture_image` is an optional image. -/
structure InputShouldTexture where
  should_texture : String
  enable_pbr : Option Bool
  texture_prompt : String
  texture_image : Option Image
deriving DecidableEq, Repr

/-- `MeshyTaskResponse` (apis/meshy.py): submission response carrying the
job handle in field `result`. -/
structure MeshyTaskResponse where
  result : String
deriving DecidableEq, Repr

/-- `MeshyTextToModelRequest` (apis/meshy.py). -/
structure MeshyTextToModelRequest where
  mode : String
  prompt : String
  art_style : String
  ai_model : String
  topology : Option String
  target_polycount : Option Int
  should_remesh : Bool
  symmetry_mode : String
  pose_mode : String
  seed : Int
  moderation : Bool
deriving DecidableEq, Repr

/-- `MeshyRefineTask` (apis/meshy.py). -/
structure MeshyRefineTask where
  mode : String
  preview_task_id : String
  enable_pbr : Option Bool
  texture_prompt : Option String
  texture_image_url : Option String
  ai_model : String
  moderation : Bool
deriving DecidableEq, Repr

/-- `MeshyImageToModelRequest` (apis/meshy.py). -/
structure MeshyImageToModelRequest where
  image_url : String
  ai_model : String
  topology : Option String
  target_polycount : Option Int
  symmetry_mode : String
  should_remesh : Bool
  should_texture : Bool
  enable_pbr : Option Bool
  pose_mode : String
  texture_prompt : Option String
  texture_image_url : Option String
  seed : Int
  moderation : Bool
deriving DecidableEq, Repr

/-- `MeshyMultiImageToModelRequest` (apis/meshy.py). -/
structure MeshyMultiImageToModelRequest where
  image_urls : List String
  ai_model : String
  topology : Option String
  target_polycount : Option Int
  symmetry_mode : String
  should_remesh : Bool
  should_texture : Bool
  enable_pbr : Option Bool
  pose_mode : String
  texture_prompt : Option String
  texture_image_url : Option String
  seed : Int
  moderation : Bool
deriving DecidableEq, Repr

/-- `MeshyRiggingRequest` (apis/meshy.py); `height_meters` is a Python
float modelled as an exact rational. -/
structure MeshyRiggingRequest where
  input_task_id : String
  height_meters : ℚ
  texture_image_url : Option String
deriving DecidableEq, Repr

/-- `MeshyAnimationRequest` (apis/meshy.py). -/
structure MeshyAnimationRequest where
  rig_task_id : String
  action_id : Int
deriving DecidableEq, Repr

/-- `MeshyTextureRequest` (apis/meshy.py).  Note: no pydantic length
constraint is declared on `text_style_prompt`. -/
structure MeshyTextureRequest where
  input_task_id : String
  ai_model : String
  enable_original_uv : Bool
  enable_pbr : Bool
  text_style_prompt : Option String
  image_style_url : Option String
deriving DecidableEq, Repr

/-- `MeshyModelsUrls` (apis/meshy.py). -/
structure MeshyModelsUrls where
  glb : String
deriving DecidableEq, Repr

/-- `MeshyRiggedModelsUrls` (apis/meshy.py). -/
structure MeshyRiggedModelsUrls where
  rigged_character_glb_url : String
deriving DecidableEq, Repr

/-- `MeshyAnimatedModelsUrls` (apis/meshy.py). -/
structure MeshyAnimatedModelsUrls where
  animation_glb_url : String
deriving DecidableEq, Repr

/-- `MeshyResultTextureUrls` (apis/meshy.py). -/
structure MeshyResultTextureUrls where
  base_color : String
  metallic : Option String
  normal : Option String
  roughness : Option String
deriving DecidableEq, Repr

/-- `MeshyTaskError` (apis/meshy.py): optional vendor error message. -/
structure MeshyTaskError where
  message : Option String
deriving DecidableEq, Repr

/-- `MeshyModelResult` (apis/meshy.py): one poll snapshot for the
text/image/multi-image/retexture endpoints. -/
structure MeshyModelResult where
  id : String
  type : String
  model_urls : MeshyModelsUrls
  thumbnail_url : String
  video_url : Option String
  status : String
  progress : Int
  texture_urls : Option (List MeshyResultTextureUrls)
  task_error : Option MeshyTaskError
deriving DecidableEq, Repr

/-- `MeshyRiggedResult` (apis/meshy.py): one poll snapshot for rigging. -/
structure MeshyRiggedResult where
  id : String
  type : String
  status : String
  progress : Int
  result : MeshyRiggedModelsUrls
  task_error : Option MeshyTaskError
deriving DecidableEq, Repr

/-- `MeshyAnimationResult` (apis/meshy.py): one poll snapshot for
animation. -/
structure MeshyAnimationResult where
  id : String
  type : String
  status : String
  progress : Int
  result : MeshyAnimatedModelsUrls
  task_error : Option MeshyTaskError
deriving DecidableEq, Repr

/-- A request body handed to the submission endpoint, tagged by the
operation kind. -/
inductive RequestBody where
  | textToModel (r : MeshyTextToModelRequest)
  | refine (r : MeshyRefineTask)
  | imageToModel (r : MeshyImageToModelRequest)
  | multiImageToModel (r : MeshyMultiImageToModelRequest)
  | rigging (r : MeshyRiggingRequest)
  | animation (r : MeshyAnimationRequest)
  | texture (r : MeshyTextureRequest)
deriving DecidableEq, Repr

/-- One network interaction performed by an `execute` routine, in order:
image uploads (`upload_images_to_comfyapi`), the creation call (`sync_op`),
each status query made by `poll_op`, and the artifact download
(`download_url_to_bytesio`). -/
inductive Call where
  | upload (images : List Image)
  | submit (path : String) (body : RequestBody)
  | pollQuery (path : String)
  | download (url : String) (path : String)
deriving DecidableEq, Repr

/-- The `IO.NodeOutput(model_file, response.result)` pair returned by the
Meshy nodes. -/
structure NodeOutput where
  model_file : String
  task_id : String
deriving DecidableEq, Repr

/-- A network call is not an artifact download. -/
def notDownload : Call → Bool
  | Call.download _ _ => false
  | _ => true

/-- Modelled from the spec: the external string validation helper
`validate_string` (comfy_api_nodes.util, not under src/), which rejects a
string shorter than `minLength` or longer than `maxLength` with a
synchronous validation error, before any network call. -/
def validate_string (s : String) (fieldName : String) (minLength maxLength : Nat) :
    Except String Unit :=
  if s.length < minLength then
    Except.error (fieldName ++ " must be at least " ++ toString minLength ++ " characters")
  else if s.length > maxLength then
    Except.error (fieldName ++ " must not exceed " ++ toString maxLength ++ " characters")
  else
    Except.ok ()

/-- An optional integer lies in `[lo, hi]` when present (pydantic applies
`ge`/`le` only to non-`None` values). -/
def inRangeOpt (lo hi : Int) (v : Option Int) : Bool :=
  match v with
  | none => true
  | some n => decide (lo ≤ n) && decide (n ≤ hi)

/-- An optional string has length at most `n` when present (pydantic
applies `max_length` only to non-`None` values). -/
def optLenLe (n : Nat) (s : Option String) : Bool :=
  match s with
  | none => true
  | some s => decide (s.length ≤ n)

/-- Constructor of `MeshyTextToModelRequest` with its declared pydantic
constraints: `prompt` has `max_length=600`, `target_polycount` has
`ge=100, le=300000`; validation errors are raised at construction, before
the creation call. -/
def mkMeshyTextToModelRequest (prompt art_style ai_model : String)
    (topology : Option String) (target_polycount : Option Int)
    (should_remesh : Bool) (symmetry_mode pose_mode : String) (seed : Int) :
    Except String MeshyTextToModelRequest :=
  if prompt.length > 600 then
    Except.error "prompt: string has more than 600 characters"
  else if inRangeOpt 100 300000 target_polycount then
    Except.ok ⟨"preview", prompt, art_style, ai_model, topology, target_polycount,
      should_remesh, symmetry_mode, pose_mode, seed, false⟩
  else
    Except.error "target_polycount: value outside the interval 100 to 300000"

/-- Constructor of `MeshyImageToModelRequest` with its declared pydantic
constraints: `target_polycount` has `ge=100, le=300000`, `texture_prompt`
has `max_length=600`. -/
def mkMeshyImageToModelRequest (image_url ai_model : String)
    (topology : Option String) (target_polycount : Option Int)
    (symmetry_mode : String) (should_remesh should_texture : Bool)
    (enable_pbr : Option Bool) (pose_mode : String)
    (texture_prompt texture_image_url : Option String) (seed : Int) :
    Except String MeshyImageToModelRequest :=
  if !inRangeOpt 100 300000 target_polycount then
    Except.error "target_polycount: value outside the interval 100 to 300000"
  else if !optLenLe 600 texture_prompt then
    Except.error "texture_prompt: string has more than 600 characters"
  else
    Except.ok ⟨image_url, ai_model, topology, target_polycount, symmetry_mode,
      should_remesh, should_texture, enable_pbr, pose_mode, texture_prompt,
      texture_image_url, seed, false⟩

/-- Constructor of `MeshyMultiImageToModelRequest` with its declared
pydantic constraints, identical to the single-image variant. -/
def mkMeshyMultiImageToModelRequest (image_urls : List String) (ai_model : String)
    (topology : Option String) (target_polycount : Option Int)
    (symmetry_mode : String) (should_remesh should_texture : Bool)
    (enable_pbr : Option Bool) (pose_mode : String)
    (texture_prompt texture_image_url : Option String) (seed : Int) :
    Except String MeshyMultiImageToModelRequest :=
  if !inRangeOpt 100 300000 target_polycount then
    Except.error "target_polycount: value outside the interval 100 to 300000"
  else if !optLenLe 600 texture_prompt then
    Except.error "texture_prompt: string has more than 600 characters"
  else
    Except.ok ⟨image_urls, ai_model, topology, target_polycount, symmetry_mode,
      should_remesh, should_texture, enable_pbr, pose_mode, texture_prompt,
      texture_image_url, seed, false⟩

/-- Python's `str.lower()` as used on the `pose_mode` combo values, whose
options (`""`, `"A-pose"`, `"T-pose"`) are ASCII. -/
def pyLower (s : String) : String := String.mk (s.data.map Char.toLower)

/-- Modelled from the spec: the external polling engine `poll_op`
(comfy_api_nodes.util, not under src/).  The environment supplies the
finite sequence of status snapshots the endpoint would return; the loop
consumes one snapshot per query, continues while the extracted status is
non-terminal, returns the snapshot on `succeeded`, and raises an error
carrying the vendor-supplied message (generic message when absent) on
`failed`.  A sequence with no terminal snapshot corresponds to a poll that
never returns; it is modelled as an error. -/
def pollLoop {α : Type} (statusOf : α → String) (msgOf : α → Option String)
    (path : String) : List α → List Call → Except (String × List Call) (List Call × α)
  | [], acc => Except.error ("polling ended without a terminal status", acc)
  | s :: rest, acc =>
    if statusOf s = "succeeded" then
      Except.ok (acc ++ [Call.pollQuery path], s)
    else if statusOf s = "failed" then
      Except.error ((msgOf s).getD "Meshy task failed", acc ++ [Call.pollQuery path])
    else
      pollLoop statusOf msgOf path rest (acc ++ [Call.pollQuery path])

/-- The `status_extractor` lambda `lambda r: r.status` passed to `poll_op`
for model results. -/
def statusOfModel (r : MeshyModelResult) : String := r.status

/-- Extraction of the vendor error message out of a model snapshot
(`task_error.message`), modelled from the spec's "carrying the
vendor-supplied error message if present". -/
def msgOfModel (r : MeshyModelResult) : Option String :=
  r.task_error.bind fun e => e.message

/-- The `status_extractor` lambda for rigging results. -/
def statusOfRigged (r : MeshyRiggedResult) : String := r.status

/-- Extraction of the vendor error message out of a rigging snapshot. -/
def msgOfRigged (r : MeshyRiggedResult) : Option String :=
  r.task_error.bind fun e => e.message

/-- The `status_extractor` lambda for animation results. -/
def statusOfAnimation (r : MeshyAnimationResult) : String := r.status

/-- Extraction of the vendor error message out of an animation snapshot. -/
def msgOfAnimation (r : MeshyAnimationResult) : Option String :=
  r.task_error.bind fun e => e.message

/-- Declared closed bounds of an integer widget. -/
structure IntBounds where
  lo : Int
  hi : Int
deriving DecidableEq, Repr

/-- Declared closed bounds of a float widget, as exact rationals. -/
structure FloatBounds where
  lo : ℚ
  hi : ℚ
deriving DecidableEq, Repr

/-- Bounds of the `target_polycount` widget declared in `define_schema`
(`min=100, max=300000`), identical across the text, image and multi-image
nodes. -/
def targetPolycountBounds : IntBounds := ⟨100, 300000⟩

/-- Bounds of the `seed` widget declared in `define_schema`
(`min=0, max=2147483647`). -/
def seedBounds : IntBounds := ⟨0, 2147483647⟩

/-- Bounds of the `action_id` widget declared in
`MeshyAnimateModelNode.define_schema` (`min=0, max=696`). -/
def actionIdBounds : IntBounds := ⟨0, 696⟩

/-- Bounds of the `height_meters` widget declared in
`MeshyRigModelNode.define_schema` (`min=0.1, max=15.0`). -/
def heightMetersBounds : FloatBounds := ⟨1/10, 15⟩

/-- Modelled from the spec: the host framework enforces the bounds an
integer widget declares, rejecting any out-of-range value before the
node's `execute` runs (hence before submission).  The enforcement code is
not under src/; the bounds themselves are the declared ones. -/
def widgetIntAccepts (b : IntBounds) (v : Int) : Bool :=
  decide (b.lo ≤ v) && decide (v ≤ b.hi)

/-- Modelled from the spec: the host framework enforces the bounds a float
widget declares, rejecting any out-of-range value before the node's
`execute` runs. -/
def widgetFloatAccepts (b : FloatBounds) (v : ℚ) : Bool :=
  decide (b.lo ≤ v) && decide (v ≤ b.hi)

/-- The texture-slot block repeated verbatim in
`MeshyImageToModelNode.execute` (lines 338-351) and
`MeshyMultiImageToModelNode.execute` (lines 499-512): mutual-exclusion
check, optional prompt validation, optional texture upload.  `uploadUrl`
is the URL the external upload service assigns to an image.  Returns the
resolved `texture_prompt`, `texture_image_url` and the upload calls made;
every error is raised before any upload. -/
def resolveTextureSlot (uploadUrl : Image → String) (st : InputShouldTexture) :
    Except String (Option String × Option String × List Call) :=
  if st.should_texture = "true" then
    if st.texture_prompt ≠ "" ∧ st.texture_image.isSome then
      Except.error "texture_prompt and texture_image cannot be used at the same time"
    else
      match (if st.texture_prompt ≠ "" then
               validate_string st.texture_prompt "texture_prompt" 0 600
             else Except.ok ()) with
      | Except.error e => Except.error e
      | Except.ok _ =>
        let tp : Option String := if st.texture_prompt ≠ "" then some st.texture_prompt else none
        match st.texture_image with
        | some img => Except.ok (tp, some (uploadUrl img), [Call.upload [img]])
        | none => Except.ok (tp, none, [])
  else
    Except.ok (none, none, [])

/-- `MeshyTextToModelNode.execute` (nodes_meshy.py lines 97-134).
`uploadUrl` and `response` (the `sync_op` reply) and `snaps` (the
successive `poll_op` snapshots) reify the network environment; `outDir`
is `get_output_directory()`.  Returns either a raised error together with
the network calls made before it, or the call trace and the
`IO.NodeOutput`. -/
def MeshyTextToModelNode.execute (response : MeshyTaskResponse)
    (snaps : List MeshyModelResult) (outDir : String)
    (model prompt style : String) (should_remesh : InputShouldRemesh)
    (symmetry_mode pose_mode : String) (seed : Int) :
    Except (String × List Call) (List Call × NodeOutput) :=
  match validate_string prompt "prompt" 1 600 with
  | Except.error e => Except.error (e, [])
  | Except.ok _ =>
    match mkMeshyTextToModelRequest prompt style model
        (should_remesh.topology) (should_remesh.target_polycount)
        (should_remesh.should_remesh = "true") symmetry_mode
        (pyLower pose_mode) seed with
    | Except.error e => Except.error (e, [])
    | Except.ok req =>
      let sTrace := [Call.submit "/proxy/meshy/openapi/v2/text-to-3d" (RequestBody.textToModel req)]
      match pollLoop statusOfModel msgOfModel
          ("/proxy/meshy/openapi/v2/text-to-3d/" ++ response.result) snaps sTrace with
      | Except.error p => Except.error p
      | Except.ok (pTrace, result) =>
        let model_file := "meshy_model_" ++ response.result ++ ".glb"
        Except.ok (pTrace ++ [Call.download result.model_urls.glb (outDir ++ "/" ++ model_file)],
          ⟨model_file, response.result⟩)

/-- `MeshyRefineNode.execute` (nodes_meshy.py lines 185-222): mutual
exclusion of `texture_prompt` and `texture_image`, prompt validation when
non-empty, texture upload when present, then submit, poll, download. -/
def MeshyRefineNode.execute (uploadUrl : Image → String) (response : MeshyTaskResponse)
    (snaps : List MeshyModelResult) (outDir : String)
    (model meshy_task_id : String) (enable_pbr : Bool)
    (texture_prompt : String) (texture_image : Option Image) :
    Except (String × List Call) (List Call × NodeOutput) :=
  if texture_prompt ≠ "" ∧ texture_image.isSome then
    Except.error ("texture_prompt and texture_image cannot be used at the same time", [])
  else
    match (if texture_prompt ≠ "" then
             validate_string texture_prompt "texture_prompt" 0 600
           else Except.ok ()) with
    | Except.error e => Except.error (e, [])
    | Except.ok _ =>
      let texture_image_url : Option String :=
        match texture_image with
        | some img => some (uploadUrl img)
        | none => none
      let uTrace : List Call :=
        match texture_image with
        | some img => [Call.upload [img]]
        | none => []
      let req : MeshyRefineTask :=
        ⟨"refine", meshy_task_id, some enable_pbr,
          (if texture_prompt ≠ "" then some texture_prompt else none),
          texture_image_url, model, false⟩
      let sTrace := uTrace ++ [Call.submit "/proxy/meshy/openapi/v2/text-to-3d" (RequestBody.refine req)]
      match pollLoop statusOfModel msgOfModel
          ("/proxy/meshy/openapi/v2/text-to-3d/" ++ response.result) snaps sTrace with
      | Except.error p => Except.error p
      | Except.ok (pTrace, result) =>
        let model_file := "meshy_model_" ++ response.result ++ ".glb"
        Except.ok (pTrace ++ [Call.download result.model_urls.glb (outDir ++ "/" ++ model_file)],
          ⟨model_file, response.result⟩)

/-- `MeshyImageToModelNode.execute` (nodes_meshy.py lines 327-380): the
texture slot is resolved first, then the base image is uploaded while the
request is built, then submit, poll, download. -/
def MeshyImageToModelNode.execute (uploadUrl : Image → String)
    (response : MeshyTaskResponse) (snaps : List MeshyModelResult) (outDir : String)
    (model : String) (image : Image) (should_remesh : InputShouldRemesh)
    (symmetry_mode : String) (should_texture : InputShouldTexture)
    (pose_mode : String) (seed : Int) :
    Except (String × List Call) (List Call × NodeOutput) :=
  match resolveTextureSlot uploadUrl should_texture with
  | Except.error e => Except.error (e, [])
  | Except.ok (texture_prompt, texture_image_url, tTrace) =>
    let uTrace := tTrace ++ [Call.upload [image]]
    match mkMeshyImageToModelRequest (uploadUrl image) model
        (should_remesh.topology) (should_remesh.target_polycount) symmetry_mode
        (should_remesh.should_remesh = "true")
        (should_texture.should_texture = "true")
        should_texture.enable_pbr (pyLower pose_mode)
        texture_prompt texture_image_url seed with
    | Except.error e => Except.error (e, uTrace)
    | Except.ok req =>
      let sTrace := uTrace ++ [Call.submit "/proxy/meshy/openapi/v1/image-to-3d" (RequestBody.imageToModel req)]
      match pollLoop statusOfModel msgOfModel
          ("/proxy/meshy/openapi/v1/image-to-3d/" ++ response.result) snaps sTrace with
      | Except.error p => Except.error p
      | Except.ok (pTrace, result) =>
        let model_file := "meshy_model_" ++ response.result ++ ".glb"
        Except.ok (pTrace ++ [Call.download result.model_urls.glb (outDir ++ "/" ++ model_file)],
          ⟨model_file, response.result⟩)

/-- `MeshyMultiImageToModelNode.execute` (nodes_meshy.py lines 488-543):
identical to the single-image node except that all base images are
uploaded in one batch. -/
def MeshyMultiImageToModelNode.execute (uploadUrl : Image → String)
    (response : MeshyTaskResponse) (snaps : List MeshyModelResult) (outDir : String)
    (model : String) (images : List Image) (should_remesh : InputShouldRemesh)
    (symmetry_mode : String) (should_texture : InputShouldTexture)
    (pose_mode : String) (seed : Int) :
    Except (String × List Call) (List Call × NodeOutput) :=
  match resolveTextureSlot uploadUrl should_texture with
  | Except.error e => Except.error (e, [])
  | Except.ok (texture_prompt, texture_image_url, tTrace) =>
    let uTrace := tTrace ++ [Call.upload images]
    match mkMeshyMultiImageToModelRequest (images.map uploadUrl) model
        (should_remesh.topology) (should_remesh.target_polycount) symmetry_mode
        (should_remesh.should_remesh = "true")
        (should_texture.should_texture = "true")
        should_texture.enable_pbr (pyLower pose_mode)
        texture_prompt texture_image_url seed with
    | Except.error e => Except.error (e, uTrace)
    | Except.ok req =>
      let sTrace := uTrace ++ [Call.submit "/proxy/meshy/openapi/v1/multi-image-to-3d" (RequestBody.multiImageToModel req)]
      match pollLoop statusOfModel msgOfModel
          ("/proxy/meshy/openapi/v1/multi-image-to-3d/" ++ response.result) snaps sTrace with
      | Except.error p => Except.error p
      | Except.ok (pTrace, result) =>
        let model_file := "meshy_model_" ++ response.result ++ ".glb"
        Except.ok (pTrace ++ [Call.download result.model_urls.glb (outDir ++ "/" ++ model_file)],
          ⟨model_file, response.result⟩)

/-- `MeshyRigModelNode.execute` (nodes_meshy.py lines 589-620). -/
def MeshyRigModelNode.execute (uploadUrl : Image → String)
    (response : MeshyTaskResponse) (snaps : List MeshyRiggedResult) (outDir : String)
    (meshy_task_id : String) (height_meters : ℚ) (texture_image : Option Image) :
    Except (String × List Call) (List Call × NodeOutput) :=
  let texture_image_url : Option String :=
    match texture_image with
    | some img => some (uploadUrl img)
    | none => none
  let uTrace : List Call :=
    match texture_image with
    | some img => [Call.upload [img]]
    | none => []
  let req : MeshyRiggingRequest := ⟨meshy_task_id, height_meters, texture_image_url⟩
  let sTrace := uTrace ++ [Call.submit "/proxy/meshy/openapi/v1/rigging" (RequestBody.rigging req)]
  match pollLoop statusOfRigged msgOfRigged
      ("/proxy/meshy/openapi/v1/rigging/" ++ response.result) snaps sTrace with
  | Except.error p => Except.error p
  | Except.ok (pTrace, result) =>
    let model_file := "meshy_model_" ++ response.result ++ ".glb"
    Except.ok (pTrace ++ [Call.download result.result.rigged_character_glb_url (outDir ++ "/" ++ model_file)],
      ⟨model_file, response.result⟩)

/-- `MeshyAnimateModelNode.execute` (nodes_meshy.py lines 657-681). -/
def MeshyAnimateModelNode.execute (response : MeshyTaskResponse)
    (snaps : List MeshyAnimationResult) (outDir : String)
    (rig_task_id : String) (action_id : Int) :
    Except (String × List Call) (List Call × NodeOutput) :=
  let req : MeshyAnimationRequest := ⟨rig_task_id, action_id⟩
  let sTrace := [Call.submit "/proxy/meshy/openapi/v1/animations" (RequestBody.animation req)]
  match pollLoop statusOfAnimation msgOfAnimation
      ("/proxy/meshy/openapi/v1/animations/" ++ response.result) snaps sTrace with
  | Except.error p => Except.error p
  | Except.ok (pTrace, result) =>
    let model_file := "meshy_model_" ++ response.result ++ ".glb"
    Except.ok (pTrace ++ [Call.download result.result.animation_glb_url (outDir ++ "/" ++ model_file)],
      ⟨model_file, response.result⟩)

/-- `MeshyTextureNode.execute` (nodes_meshy.py lines 733-772): mutual
exclusion of `text_style_prompt` and `image_style`, then the requirement
that at least one of them be supplied; no length validation is applied to
`text_style_prompt`. -/
def MeshyTextureNode.execute (uploadUrl : Image → String)
    (response : MeshyTaskResponse) (snaps : List MeshyModelResult) (outDir : String)
    (model meshy_task_id : String) (enable_original_uv pbr : Bool)
    (text_style_prompt : String) (image_style : Option Image) :
    Except (String × List Call) (List Call × NodeOutput) :=
  if text_style_prompt ≠ "" ∧ image_style.isSome then
    Except.error ("text_style_prompt and image_style cannot be used at the same time", [])
  else if text_style_prompt = "" ∧ image_style = none then
    Except.error ("Either text_style_prompt or image_style is required", [])
  else
    let image_style_url : Option String :=
      match image_style with
      | some img => some (uploadUrl img)
      | none => none
    let uTrace : List Call :=
      match image_style with
      | some img => [Call.upload [img]]
      | none => []
    let req : MeshyTextureRequest :=
      ⟨meshy_task_id, model, enable_original_uv, pbr,
        (if text_style_prompt ≠ "" then some text_style_prompt else none), image_style_url⟩
    let sTrace := uTrace ++ [Call.submit "/proxy/meshy/openapi/v1/retexture" (RequestBody.texture req)]
    match pollLoop statusOfModel msgOfModel
        ("/proxy/meshy/openapi/v1/retexture/" ++ response.result) snaps sTrace with
    | Except.error p => Except.error p
    | Except.ok (pTrace, result) =>
      let model_file := "meshy_model_" ++ response.result ++ ".glb"
      Except.ok (pTrace ++ [Call.download result.model_urls.glb (outDir ++ "/" ++ model_file)],
        ⟨model_file, response.result⟩)

/-- The network-call trace of an execution result, whether the run raised
an error or completed. -/
def resultTrace {α : Type} : Except (String × List Call) (List Call × α) → List Call
  | Except.ok (tr, _) => tr
  | Except.error (_, tr) => tr

/-- The request bodies handed to the creation endpoint within a trace. -/
def submittedBodies : List Call → List RequestBody
  | [] => []
  | Call.submit _ b :: rest => b :: submittedBodies rest
  | _ :: rest => submittedBodies rest

theorem submittedBodies_append (a b : List Call) :
    submittedBodies (a ++ b) = submittedBodies a ++ submittedBodies b := by
  induction a with
  | nil => rfl
  | cons c rest ih => cases c <;> simp [submittedBodies, ih]

theorem submittedBodies_pollLoop {α : Type} (statusOf : α → String)
    (msgOf : α → Option String) (path : String) (snaps : List α) (acc : List Call) :
    submittedBodies (resultTrace (pollLoop statusOf msgOf path snaps acc)) =
      submittedBodies acc := by
  induction snaps generalizing acc with
  | nil => simp [pollLoop, resultTrace]
  | cons s rest ih =>
    by_cases hs : statusOf s = "succeeded"
    · simp [pollLoop, hs, resultTrace, submittedBodies_append, submittedBodies]
    · by_cases hf : statusOf s = "failed"
      · simp [pollLoop, hs, hf, resultTrace, submittedBodies_append, submittedBodies]
      · simpa [pollLoop, hs, hf, submittedBodies_append, submittedBodies] using
          ih (acc ++ [Call.pollQuery path])

theorem downloads_absent_pollLoop {α : Type} (statusOf : α → String)
    (msgOf : α → Option String) (path : String) (snaps : List α) (acc : List Call)
    (hacc : acc.all notDownload = true) (msg : String) (tr : List Call)
    (herr : pollLoop statusOf msgOf path snaps acc = Except.error (msg, tr)) :
    tr.all notDownload = true := by
  induction snaps generalizing acc with
  | nil =>
    simp only [pollLoop] at herr
    cases herr
    exact hacc
  | cons s rest ih =>
    by_cases hs : statusOf s = "succeeded"
    · simp [pollLoop, hs] at herr
    · by_cases hf : statusOf s = "failed"
      · simp only [pollLoop, hs, hf, if_true, if_false, ite_true, ite_false] at herr
        simp at herr
        rcases herr with ⟨_, h2⟩
        subst h2
        simp [List.all_append, hacc, notDownload]
      · simp only [pollLoop, hs, hf, ite_false] at herr
        exact ih (acc ++ [Call.pollQuery path])
          (by simp [List.all_append, hacc, notDownload]) herr

theorem pollLoop_success {α : Type} (statusOf : α → String) (msgOf : α → Option String)
    (path : String) (pre post : List α) (t : α) (acc : List Call)
    (hpre : ∀ s ∈ pre, statusOf s ≠ "succeeded" ∧ statusOf s ≠ "failed")
    (ht : statusOf t = "succeeded") :
    pollLoop statusOf msgOf path (pre ++ t :: post) acc =
      Except.ok (acc ++ (pre ++ [t]).map (fun _ => Call.pollQuery path), t) := by
  induction pre generalizing acc with
  | nil => simp [pollLoop, ht]
  | cons s pre ih =>
    have hs := hpre s (by simp)
    have := ih (acc ++ [Call.pollQuery path]) fun x hx => hpre x (by simp [hx])
    simp [pollLoop, hs.1, hs.2, this]

theorem pollLoop_failure {α : Type} (statusOf : α → String) (msgOf : α → Option String)
    (path : String) (pre post : List α) (t : α) (acc : List Call)
    (hpre : ∀ s ∈ pre, statusOf s ≠ "succeeded" ∧ statusOf s ≠ "failed")
    (ht : statusOf t = "failed") :
    pollLoop statusOf msgOf path (pre ++ t :: post) acc =
      Except.error ((msgOf t).getD "Meshy task failed",
        acc ++ (pre ++ [t]).map (fun _ => Call.pollQuery path)) := by
  induction pre generalizing acc with
  | nil =>
    have hts : statusOf t ≠ "succeeded" := by simp [ht]
    simp [pollLoop, ht, hts]
  | cons s pre ih =>
    have hs := hpre s (by simp)
    have := ih (acc ++ [Call.pollQuery path]) fun x hx => hpre x (by simp [hx])
    simp [pollLoop, hs.1, hs.2, this]

theorem mkMeshyTextToModelRequest_ok (prompt art_style ai_model : String)
    (topology : Option String) (target_polycount : Option Int)
    (should_remesh : Bool) (symmetry_mode pose_mode : String) (seed : Int)
    (r : MeshyTextToModelRequest)
    (h : mkMeshyTextToModelRequest prompt art_style ai_model topology target_polycount
        should_remesh symmetry_mode pose_mode seed = Except.ok r) :
    r = ⟨"preview", prompt, art_style, ai_model, topology, target_polycount,
      should_remesh, symmetry_mode, pose_mode, seed, false⟩ := by
  unfold mkMeshyTextToModelRequest at h
  split at h
  · cases h
  · split at h
    · cases h; rfl
    · cases h

theorem mkMeshyImageToModelRequest_ok (image_url ai_model : String)
    (topology : Option String) (target_polycount : Option Int)
    (symmetry_mode : String) (should_remesh should_texture : Bool)
    (enable_pbr : Option Bool) (pose_mode : String)
    (texture_prompt texture_image_url : Option String) (seed : Int)
    (r : MeshyImageToModelRequest)
    (h : mkMeshyImageToModelRequest image_url ai_model topology target_polycount
        symmetry_mode should_remesh should_texture enable_pbr pose_mode
        texture_prompt texture_image_url seed = Except.ok r) :
    r = ⟨image_url, ai_model, topology, target_polycount, symmetry_mode,
      should_remesh, should_texture, enable_pbr, pose_mode, texture_prompt,
      texture_image_url, seed, false⟩ := by
  unfold mkMeshyImageToModelRequest at h
  split at h
  · cases h
  · split at h
    · cases h
    · cases h; rfl

theorem mkMeshyMultiImageToModelRequest_ok (image_urls : List String) (ai_model : String)
    (topology : Option String) (target_polycount : Option Int)
    (symmetry_mode : String) (should_remesh should_texture : Bool)
    (enable_pbr : Option Bool) (pose_mode : String)
    (texture_prompt texture_image_url : Option String) (seed : Int)
    (r : MeshyMultiImageToModelRequest)
    (h : mkMeshyMultiImageToModelRequest image_urls ai_model topology target_polycount
        symmetry_mode should_remesh should_texture enable_pbr pose_mode
        texture_prompt texture_image_url seed = Except.ok r) :
    r = ⟨image_urls, ai_model, topology, target_polycount, symmetry_mode,
      should_remesh, should_texture, enable_pbr, pose_mode, texture_prompt,
      texture_image_url, seed, false⟩ := by
  unfold mkMeshyMultiImageToModelRequest at h
  split at h
  · cases h
  · split at h
    · cases h
    · cases h; rfl

/-- A successful terminal snapshot used as a concrete polling environment. -/
def succSnapshot : MeshyModelResult :=
  ⟨"job1", "text_to_3d", ⟨"http://example.com/a.glb"⟩, "thumb", none, "succeeded", 100, none, none⟩

/-- An in-progress snapshot at 10 percent. -/
def progressSnapshot10 : MeshyModelResult :=
  ⟨"job1", "text_to_3d", ⟨""⟩, "thumb", none, "in-progress", 10, none, none⟩

/-- An in-progress snapshot at 55 percent. -/
def progressSnapshot55 : MeshyModelResult :=
  ⟨"job1", "text_to_3d", ⟨""⟩, "thumb", none, "in-progress", 55, none, none⟩

/-- A failed terminal snapshot carrying the vendor message "bad mesh". -/
def failedSnapshot : MeshyModelResult :=
  ⟨"job1", "text_to_3d", ⟨""⟩, "thumb", none, "failed", 80, none, some ⟨some "bad mesh"⟩⟩

theorem t2m_submitted_characterization (resp : MeshyTaskResponse)
    (snaps : List MeshyModelResult) (dir model prompt style sym pm : String)
    (sr : InputShouldRemesh) (seed : Int) :
    ∀ b ∈ submittedBodies (resultTrace (MeshyTextToModelNode.execute resp snaps dir model
        prompt style sr sym pm seed)),
      b = RequestBody.textToModel ⟨"preview", prompt, style, model, sr.topology,
        sr.target_polycount, decide (sr.should_remesh = "true"), sym, pyLower pm, seed,
        false⟩ := by
  intro b hb
  simp only [MeshyTextToModelNode.execute] at hb
  split at hb
  · simp [resultTrace, submittedBodies] at hb
  split at hb
  · simp [resultTrace, submittedBodies] at hb
  rename_i req hreq
  have hreq2 := mkMeshyTextToModelRequest_ok _ _ _ _ _ _ _ _ _ _ hreq
  subst hreq2
  split at hb
  · rename_i p hpoll
    obtain ⟨msg, tr⟩ := p
    have h2 := submittedBodies_pollLoop statusOfModel msgOfModel
      ("/proxy/meshy/openapi/v2/text-to-3d/" ++ resp.result) snaps
      [Call.submit "/proxy/meshy/openapi/v2/text-to-3d" (RequestBody.textToModel
        ⟨"preview", prompt, style, model, sr.topology, sr.target_polycount,
          decide (sr.should_remesh = "true"), sym, pyLower pm, seed, false⟩)]
    rw [hpoll] at h2
    simp only [resultTrace, submittedBodies] at h2 hb
    rw [h2] at hb
    simpa using hb
  · rename_i pr hpoll
    obtain ⟨pTrace, result⟩ := pr
    have h2 := submittedBodies_pollLoop statusOfModel msgOfModel
      ("/proxy/meshy/openapi/v2/text-to-3d/" ++ resp.result) snaps
      [Call.submit "/proxy/meshy/openapi/v2/text-to-3d" (RequestBody.textToModel
        ⟨"preview", prompt, style, model, sr.topology, sr.target_polycount,
          decide (sr.should_remesh = "true"), sym, pyLower pm, seed, false⟩)]
    rw [hpoll] at h2
    simp only [resultTrace, submittedBodies] at h2 hb
    rw [submittedBodies_append, h2] at hb
    simpa [submittedBodies] using hb

theorem resolveTextureSlot_trace_no_submit (u : Image → String) (st : InputShouldTexture)
    (tp tiu : Option String) (tr : List Call)
    (h : resolveTextureSlot u st = Except.ok (tp, tiu, tr)) :
    submittedBodies tr = [] := by
  unfold resolveTextureSlot at h
  split at h
  · split at h
    · cases h
    · split at h
      · cases h
      · split at h <;> split at h <;> (cases h; rfl)
  · cases h; rfl

theorem i2m_submitted_characterization (u : Image → String) (resp : MeshyTaskResponse)
    (snaps : List MeshyModelResult) (dir model : String) (img : Image)
    (sr : InputShouldRemesh) (sym : String) (st : InputShouldTexture) (pm : String)
    (seed : Int) :
    ∀ b ∈ submittedBodies (resultTrace (MeshyImageToModelNode.execute u resp snaps dir model
        img sr sym st pm seed)),
      ∃ tp tiu tr, resolveTextureSlot u st = Except.ok (tp, tiu, tr) ∧
        b = RequestBody.imageToModel ⟨u img, model, sr.topology, sr.target_polycount, sym,
          decide (sr.should_remesh = "true"), decide (st.should_texture = "true"),
          st.enable_pbr, pyLower pm, tp, tiu, seed, false⟩ := by
  intro b hb
  simp only [MeshyImageToModelNode.execute] at hb
  split at hb
  · simp [resultTrace, submittedBodies] at hb
  rename_i res tp tiu tTrace hslot
  refine ⟨tp, tiu, tTrace, hslot, ?_⟩
  have h0 := resolveTextureSlot_trace_no_submit u st tp tiu tTrace hslot
  split at hb
  · simp [resultTrace, submittedBodies_append, h0, submittedBodies] at hb
  rename_i req hreq
  have hreq2 := mkMeshyImageToModelRequest_ok _ _ _ _ _ _ _ _ _ _ _ _ _ hreq
  subst hreq2
  split at hb
  · rename_i p hpoll
    obtain ⟨msg, tr2⟩ := p
    have h2 := submittedBodies_pollLoop statusOfModel msgOfModel
      ("/proxy/meshy/openapi/v1/image-to-3d/" ++ resp.result) snaps
      ((tTrace ++ [Call.upload [img]]) ++
        [Call.submit "/proxy/meshy/openapi/v1/image-to-3d" (RequestBody.imageToModel
          ⟨u img, model, sr.topology, sr.target_polycount, sym,
            decide (sr.should_remesh = "true"), decide (st.should_texture = "true"),
            st.enable_pbr, pyLower pm, tp, tiu, seed, false⟩)])
    rw [hpoll] at h2
    simp only [resultTrace] at h2 hb
    rw [h2, submittedBodies_append, submittedBodies_append, h0] at hb
    simpa [submittedBodies] using hb
  · rename_i pr hpoll
    obtain ⟨pTrace, result⟩ := pr
    have h2 := submittedBodies_pollLoop statusOfModel msgOfModel
      ("/proxy/meshy/openapi/v1/image-to-3d/" ++ resp.result) snaps
      ((tTrace ++ [Call.upload [img]]) ++
        [Call.submit "/proxy/meshy/openapi/v1/image-to-3d" (RequestBody.imageToModel
          ⟨u img, model, sr.topology, sr.target_polycount, sym,
            decide (sr.should_remesh = "true"), decide (st.should_texture = "true"),
            st.enable_pbr, pyLower pm, tp, tiu, seed, false⟩)])
    rw [hpoll] at h2
    simp only [resultTrace] at h2 hb
    rw [submittedBodies_append, h2, submittedBodies_append, submittedBodies_append, h0] at hb
    simpa [submittedBodies] using hb

theorem mi2m_submitted_characterization (u : Image → String) (resp : MeshyTaskResponse)
    (snaps : List MeshyModelResult) (dir model : String) (imgs : List Image)
    (sr : InputShouldRemesh) (sym : String) (st : InputShouldTexture) (pm : String)
    (seed : Int) :
    ∀ b ∈ submittedBodies (resultTrace (MeshyMultiImageToModelNode.execute u resp snaps dir
        model imgs sr sym st pm seed)),
      ∃ tp tiu tr, resolveTextureSlot u st = Except.ok (tp, tiu, tr) ∧
        b = RequestBody.multiImageToModel ⟨imgs.map u, model, sr.topology,
          sr.target_polycount, sym, decide (sr.should_remesh = "true"),
          decide (st.should_texture = "true"), st.enable_pbr, pyLower pm, tp, tiu, seed,
          false⟩ := by
  intro b hb
  simp only [MeshyMultiImageToModelNode.execute] at hb
  split at hb
  · simp [resultTrace, submittedBodies] at hb
  rename_i res tp tiu tTrace hslot
  refine ⟨tp, tiu, tTrace, hslot, ?_⟩
  have h0 := resolveTextureSlot_trace_no_submit u st tp tiu tTrace hslot
  split at hb
  · simp [resultTrace, submittedBodies_append, h0, submittedBodies] at hb
  rename_i req hreq
  have hreq2 := mkMeshyMultiImageToModelRequest_ok _ _ _ _ _ _ _ _ _ _ _ _ _ hreq
  subst hreq2
  split at hb
  · rename_i p hpoll
    obtain ⟨msg, tr2⟩ := p
    have h2 := submittedBodies_pollLoop statusOfModel msgOfModel
      ("/proxy/meshy/openapi/v1/multi-image-to-3d/" ++ resp.result) snaps
      ((tTrace ++ [Call.upload imgs]) ++
        [Call.submit "/proxy/meshy/openapi/v1/multi-image-to-3d" (RequestBody.multiImageToModel
          ⟨imgs.map u, model, sr.topology, sr.target_polycount, sym,
            decide (sr.should_remesh = "true"), decide (st.should_texture = "true"),
            st.enable_pbr, pyLower pm, tp, tiu, seed, false⟩)])
    rw [hpoll] at h2
    simp only [resultTrace] at h2 hb
    rw [h2, submittedBodies_append, submittedBodies_append, h0] at hb
    simpa [submittedBodies] using hb
  · rename_i pr hpoll
    obtain ⟨pTrace, result⟩ := pr
    have h2 := submittedBodies_pollLoop statusOfModel msgOfModel
      ("/proxy/meshy/openapi/v1/multi-image-to-3d/" ++ resp.result) snaps
      ((tTrace ++ [Call.upload imgs]) ++
        [Call.submit "/proxy/meshy/openapi/v1/multi-image-to-3d" (RequestBody.multiImageToModel
          ⟨imgs.map u, model, sr.topology, sr.target_polycount, sym,
            decide (sr.should_remesh = "true"), decide (st.should_texture = "true"),
            st.enable_pbr, pyLower pm, tp, tiu, seed, false⟩)])
    rw [hpoll] at h2
    simp only [resultTrace] at h2 hb
    rw [submittedBodies_append, h2, submittedBodies_append, submittedBodies_append, h0] at hb
    simpa [submittedBodies] using hb

/-- C1: for every execution of an operation with a texturing slot (refine,
image-to-model, multi-image-to-model, retexture), if both the
texture/style text prompt is a non-empty string and the texture/style
image is supplied, the execution raises the validation error before any
network call: the error trace is empty, so no upload and no submission
was attempted. -/
theorem texturing_slot_mutual_exclusion_before_network
    (u : Image → String) (resp : MeshyTaskResponse) (snaps : List MeshyModelResult)
    (dir model tid : String) (pbr : Bool) (tp : String) (img base : Image)
    (imgs : List Image) (sr : InputShouldRemesh) (sym pm : String) (seed : Int)
    (st : InputShouldTexture) (uv pbr2 : Bool)
    (htp : tp ≠ "")
    (hst : st.should_texture = "true") (hstp : st.texture_prompt ≠ "")
    (hsti : st.texture_image.isSome = true) :
    MeshyRefineNode.execute u resp snaps dir model tid pbr tp (some img) =
      Except.error ("texture_prompt and texture_image cannot be used at the same time", []) ∧
    MeshyImageToModelNode.execute u resp snaps dir model base sr sym st pm seed =
      Except.error ("texture_prompt and texture_image cannot be used at the same time", []) ∧
    MeshyMultiImageToModelNode.execute u resp snaps dir model imgs sr sym st pm seed =
      Except.error ("texture_prompt and texture_image cannot be used at the same time", []) ∧
    MeshyTextureNode.execute u resp snaps dir model tid uv pbr2 tp (some img) =
      Except.error ("text_style_prompt and image_style cannot be used at the same time", []) := by
  refine ⟨?_, ?_, ?_, ?_⟩
  · simp [MeshyRefineNode.execute, htp]
  · simp [MeshyImageToModelNode.execute, resolveTextureSlot, hst, hstp, hsti]
  · simp [MeshyMultiImageToModelNode.execute, resolveTextureSlot, hst, hstp, hsti]
  · simp [MeshyTextureNode.execute, htp]

/-- Witness for C1: the four mutual-exclusion errors at concrete inputs. -/
theorem texturing_slot_mutual_exclusion_before_network_witness :
    (("styled" : String) ≠ "" ∧
      (InputShouldTexture.mk "true" (some false) "styled" (some ⟨7⟩)).should_texture = "true" ∧
      (InputShouldTexture.mk "true" (some false) "styled" (some ⟨7⟩)).texture_prompt ≠ "" ∧
      (InputShouldTexture.mk "true" (some false) "styled" (some ⟨7⟩)).texture_image.isSome = true) ∧
    (MeshyRefineNode.execute (fun _ => "u") ⟨"h1"⟩ [succSnapshot] "/out" "latest" "tid" false
        "styled" (some ⟨7⟩) =
      Except.error ("texture_prompt and texture_image cannot be used at the same time", []) ∧
    MeshyImageToModelNode.execute (fun _ => "u") ⟨"h1"⟩ [succSnapshot] "/out" "latest" ⟨1⟩
        ⟨"true", some "quad", some 5000⟩ "auto"
        (InputShouldTexture.mk "true" (some false) "styled" (some ⟨7⟩)) "A-pose" 0 =
      Except.error ("texture_prompt and texture_image cannot be used at the same time", []) ∧
    MeshyMultiImageToModelNode.execute (fun _ => "u") ⟨"h1"⟩ [succSnapshot] "/out" "latest"
        [⟨1⟩, ⟨2⟩] ⟨"true", some "quad", some 5000⟩ "auto"
        (InputShouldTexture.mk "true" (some false) "styled" (some ⟨7⟩)) "A-pose" 0 =
      Except.error ("texture_prompt and texture_image cannot be used at the same time", []) ∧
    MeshyTextureNode.execute (fun _ => "u") ⟨"h1"⟩ [succSnapshot] "/out" "latest" "tid"
        true false "styled" (some ⟨7⟩) =
      Except.error ("text_style_prompt and image_style cannot be used at the same time", [])) :=
  ⟨by decide,
    texturing_slot_mutual_exclusion_before_network (fun _ => "u") ⟨"h1"⟩ [succSnapshot]
      "/out" "latest" "tid" false "styled" ⟨7⟩ ⟨1⟩ [⟨1⟩, ⟨2⟩]
      ⟨"true", some "quad", some 5000⟩ "auto" "A-pose" 0
      (InputShouldTexture.mk "true" (some false) "styled" (some ⟨7⟩)) true false
      (by decide) (by decide) (by decide) (by decide)⟩

/-- C8: the retexture node requires at least one style source: with an
empty text_style_prompt and no image_style the invocation raises a
validation error before any network call (empty trace), unlike the refine
texturing slot, where supplying neither a texture prompt nor a texture
image is accepted and the run proceeds to submission. -/
theorem retexture_requires_a_style_source
    (u : Image → String) (resp : MeshyTaskResponse) (snaps : List MeshyModelResult)
    (dir model tid : String) (uv pbr : Bool) (dir2 model2 tid2 : String) (pbr2 : Bool) :
    MeshyTextureNode.execute u resp snaps dir model tid uv pbr "" none =
      Except.error ("Either text_style_prompt or image_style is required", []) ∧
    ∃ tr out, MeshyRefineNode.execute u resp [succSnapshot] dir2 model2 tid2 pbr2 "" none =
      Except.ok (tr, out) := by
  constructor
  · simp [MeshyTextureNode.execute]
  · exact ⟨_, _, rfl⟩

/-- Counterexample to C2 as stated: a text-to-model input whose captured
dict has `should_remesh = "false"` yet still carries `topology` and
`target_polycount` (the code reads them with `.get` regardless of the
toggle) produces an outgoing request in which both sub-fields are present,
not omitted, and that request is submitted. -/
theorem remesh_false_captured_subfields_still_sent :
    MeshyTextToModelNode.execute ⟨"h1"⟩ [succSnapshot] "/out" "latest" "a red chair"
      "realistic" ⟨"false", some "quad", some 5000⟩ "auto" "A-pose" 0 =
    Except.ok ([Call.submit "/proxy/meshy/openapi/v2/text-to-3d"
        (RequestBody.textToModel ⟨"preview", "a red chair", "realistic", "latest",
          some "quad", some 5000, false, "auto", "a-pose", 0, false⟩),
      Call.pollQuery "/proxy/meshy/openapi/v2/text-to-3d/h1",
      Call.download "http://example.com/a.glb" "/out/meshy_model_h1.glb"],
      ⟨"meshy_model_h1.glb", "h1"⟩) := rfl

/-- C2 (amended): when the toggle is "false", `texture_prompt` and
`texture_image_url` are omitted from the outgoing request by the toggle
itself, while `topology`, `target_polycount` and `enable_pbr` are read
with `.get` and are omitted exactly when absent from the captured dict —
which the dynamic-combo UI guarantees when the toggle is "false".  In
particular a text-to-model request built from a UI-conformant capture with
should_remesh=false omits topology and target_polycount entirely. -/
theorem toggle_false_omits_dependent_subfields
    (u : Image → String) (resp : MeshyTaskResponse) (snaps : List MeshyModelResult)
    (dir model prompt style sym pm : String) (img : Image)
    (sr : InputShouldRemesh) (st : InputShouldTexture) (seed : Int)
    (htopo : sr.topology = none) (hpc : sr.target_polycount = none)
    (hsr : sr.should_remesh = "false")
    (hst : st.should_texture = "false") (hpbr : st.enable_pbr = none) :
    (∀ b ∈ submittedBodies (resultTrace (MeshyTextToModelNode.execute resp snaps dir model
        prompt style sr sym pm seed)),
      ∃ r, b = RequestBody.textToModel r ∧ r.topology = none ∧ r.target_polycount = none ∧
        r.should_remesh = false) ∧
    (∀ b ∈ submittedBodies (resultTrace (MeshyImageToModelNode.execute u resp snaps dir model
        img sr sym st pm seed)),
      ∃ r, b = RequestBody.imageToModel r ∧ r.topology = none ∧ r.target_polycount = none ∧
        r.should_texture = false ∧ r.enable_pbr = none ∧ r.texture_prompt = none ∧
        r.texture_image_url = none) := by
  constructor
  · intro b hb
    have h := t2m_submitted_characterization resp snaps dir model prompt style sym pm sr
      seed b hb
    exact ⟨_, h, by simp [htopo], by simp [hpc], by simp [hsr]⟩
  · intro b hb
    obtain ⟨tp, tiu, tr, hslot, hbody⟩ := i2m_submitted_characterization u resp snaps dir
      model img sr sym st pm seed b hb
    have hslot2 : resolveTextureSlot u st = Except.ok (none, none, []) := by
      unfold resolveTextureSlot
      simp [hst]
    have heq := hslot2.symm.trans hslot
    simp only [Except.ok.injEq, Prod.mk.injEq] at heq
    obtain ⟨h4, h5, h6⟩ := heq
    subst h4
    subst h5
    exact ⟨_, hbody, by simp [htopo], by simp [hpc], by simp [hst], by simp [hpbr],
      rfl, rfl⟩

/-- Witness for C2's amended theorem: the submitted request of a concrete
UI-conformant text-to-model run with should_remesh="false" omits topology
and target_polycount. -/
theorem toggle_false_omits_dependent_subfields_witness :
    ((InputShouldRemesh.mk "false" none none).topology = none ∧
      (InputShouldRemesh.mk "false" none none).target_polycount = none ∧
      (InputShouldRemesh.mk "false" none none).should_remesh = "false" ∧
      (InputShouldTexture.mk "false" none "" none).should_texture = "false" ∧
      (InputShouldTexture.mk "false" none "" none).enable_pbr = none) ∧
    (∃ r, RequestBody.textToModel ⟨"preview", "a red chair", "realistic", "latest", none,
        none, false, "auto", "", 0, false⟩ = RequestBody.textToModel r ∧
      r.topology = none ∧ r.target_polycount = none ∧ r.should_remesh = false) :=
  ⟨by decide,
    (toggle_false_omits_dependent_subfields (fun _ => "u") ⟨"h1"⟩ [succSnapshot] "/out"
      "latest" "a red chair" "realistic" "auto" "" ⟨1⟩ ⟨"false", none, none⟩
      ⟨"false", none, "", none⟩ 0 rfl rfl rfl rfl rfl).1
      (RequestBody.textToModel ⟨"preview", "a red chair", "realistic", "latest", none,
        none, false, "auto", "", 0, false⟩) (by decide)⟩

/-- C9: an image-to-model or multi-image-to-model run with the
should_texture toggle "true" but an empty texture_prompt and no
texture_image raises no validation error: the texture slot resolves to no
prompt and no image URL, the run proceeds to submission, and the submitted
request has should_texture true with texture_prompt and texture_image_url
both absent. -/
theorem should_texture_true_without_source_is_accepted
    (u : Image → String) (resp : MeshyTaskResponse) (dir model sym pm : String)
    (img : Image) (imgs : List Image) (sr : InputShouldRemesh) (seed : Int)
    (pbrOpt : Option Bool)
    (hpc : inRangeOpt 100 300000 sr.target_polycount = true) :
    resolveTextureSlot u ⟨"true", pbrOpt, "", none⟩ = Except.ok (none, none, []) ∧
    (∃ tr out, MeshyImageToModelNode.execute u resp [succSnapshot] dir model img sr sym
        ⟨"true", pbrOpt, "", none⟩ pm seed = Except.ok (tr, out) ∧
      submittedBodies tr = [RequestBody.imageToModel ⟨u img, model, sr.topology,
        sr.target_polycount, sym, decide (sr.should_remesh = "true"), true, pbrOpt,
        pyLower pm, none, none, seed, false⟩]) ∧
    (∃ tr out, MeshyMultiImageToModelNode.execute u resp [succSnapshot] dir model imgs sr
        sym ⟨"true", pbrOpt, "", none⟩ pm seed = Except.ok (tr, out) ∧
      submittedBodies tr = [RequestBody.multiImageToModel ⟨imgs.map u, model, sr.topology,
        sr.target_polycount, sym, decide (sr.should_remesh = "true"), true, pbrOpt,
        pyLower pm, none, none, seed, false⟩]) := by
  refine ⟨rfl, ?_, ?_⟩
  · simp only [MeshyImageToModelNode.execute, resolveTextureSlot, mkMeshyImageToModelRequest,
      hpc, optLenLe, pollLoop, statusOfModel, succSnapshot]
    refine ⟨_, _, rfl, ?_⟩
    simp [submittedBodies_append, submittedBodies]
  · simp only [MeshyMultiImageToModelNode.execute, resolveTextureSlot,
      mkMeshyMultiImageToModelRequest, hpc, optLenLe, pollLoop, statusOfModel, succSnapshot]
    refine ⟨_, _, rfl, ?_⟩
    simp [submittedBodies_append, submittedBodies]

/-- C10: for every text-to-model, image-to-model and multi-image-to-model
request actually submitted, the request's pose_mode is the lowercased UI
pose_mode input; on the combo options, "A-pose" is sent as "a-pose",
"T-pose" as "t-pose", and the empty option stays empty. -/
theorem pose_mode_sent_lowercased
    (u : Image → String) (resp : MeshyTaskResponse) (snaps : List MeshyModelResult)
    (dir model prompt style sym pm : String) (img : Image) (imgs : List Image)
    (sr : InputShouldRemesh) (st : InputShouldTexture) (seed : Int) :
    (∀ b ∈ submittedBodies (resultTrace (MeshyTextToModelNode.execute resp snaps dir model
        prompt style sr sym pm seed)),
      ∀ r, b = RequestBody.textToModel r → r.pose_mode = pyLower pm) ∧
    (∀ b ∈ submittedBodies (resultTrace (MeshyImageToModelNode.execute u resp snaps dir
        model img sr sym st pm seed)),
      ∀ r, b = RequestBody.imageToModel r → r.pose_mode = pyLower pm) ∧
    (∀ b ∈ submittedBodies (resultTrace (MeshyMultiImageToModelNode.execute u resp snaps dir
        model imgs sr sym st pm seed)),
      ∀ r, b = RequestBody.multiImageToModel r → r.pose_mode = pyLower pm) ∧
    pyLower "A-pose" = "a-pose" ∧ pyLower "T-pose" = "t-pose" ∧ pyLower "" = "" := by
  refine ⟨?_, ?_, ?_, by decide, by decide, rfl⟩
  · intro b hb r hr
    have h := t2m_submitted_characterization resp snaps dir model prompt style sym pm sr
      seed b hb
    rw [h] at hr
    injection hr with hr2
    rw [← hr2]
  · intro b hb r hr
    obtain ⟨tp, tiu, tr, _, hbody⟩ := i2m_submitted_characterization u resp snaps dir model
      img sr sym st pm seed b hb
    rw [hbody] at hr
    injection hr with hr2
    rw [← hr2]
  · intro b hb r hr
    obtain ⟨tp, tiu, tr, _, hbody⟩ := mi2m_submitted_characterization u resp snaps dir model
      imgs sr sym st pm seed b hb
    rw [hbody] at hr
    injection hr with hr2
    rw [← hr2]

/-- Witness for C10: in a concrete text-to-model run with pose_mode
"A-pose", the submitted request's pose_mode is "a-pose". -/
theorem pose_mode_sent_lowercased_witness :
    (RequestBody.textToModel ⟨"preview", "a red chair", "realistic", "latest", none, none,
        false, "auto", "a-pose", 0, false⟩ ∈
      submittedBodies (resultTrace (MeshyTextToModelNode.execute ⟨"h1"⟩ [succSnapshot]
        "/out" "latest" "a red chair" "realistic" ⟨"false", none, none⟩ "auto" "A-pose" 0)) ∧
      pyLower "A-pose" = "a-pose") ∧
    (⟨"preview", "a red chair", "realistic", "latest", none, none, false, "auto", "a-pose",
        0, false⟩ : MeshyTextToModelRequest).pose_mode = pyLower "A-pose" :=
  ⟨⟨by decide, by decide⟩,
    (pose_mode_sent_lowercased (fun _ => "u") ⟨"h1"⟩ [succSnapshot] "/out" "latest"
      "a red chair" "realistic" "auto" "A-pose" ⟨1⟩ [⟨1⟩, ⟨2⟩] ⟨"false", none, none⟩
      ⟨"false", none, "", none⟩ 0).1
      (RequestBody.textToModel ⟨"preview", "a red chair", "realistic", "latest", none, none,
        false, "auto", "a-pose", 0, false⟩) (by decide) _ rfl⟩

theorem string_length_ne_zero (s : String) (h : s ≠ "") : s.length ≠ 0 := by
  intro h0
  apply h
  cases s with
  | mk data =>
    simp [String.length] at h0
    simp [h0]

/-- Witness for C9: the concrete texture slot with toggle "true", empty
prompt and no image resolves without a validation error. -/
theorem should_texture_true_without_source_is_accepted_witness :
    inRangeOpt 100 300000
        (InputShouldRemesh.mk "true" (some "quad") (some 5000)).target_polycount = true ∧
    resolveTextureSlot (fun _ => "u") ⟨"true", some false, "", none⟩ =
      Except.ok (none, none, []) :=
  ⟨by decide,
    (should_texture_true_without_source_is_accepted (fun _ => "u") ⟨"h1"⟩ "/out" "latest"
      "auto" "A-pose" ⟨1⟩ [⟨1⟩, ⟨2⟩] ⟨"true", some "quad", some 5000⟩ 0 (some false)
      (by decide)).1⟩

/-- C5: the poll loop consumes one status query per snapshot, continues
while the extracted status is pending or in-progress, and exits exactly at
the first terminal snapshot: with any pending/in-progress prefix and a
succeeded snapshot next, it returns that final succeeded snapshot as the
result, having queried once per consumed snapshot, and never looks past
it. -/
theorem poll_loop_exits_at_first_terminal
    (path : String) (pre post : List MeshyModelResult) (t : MeshyModelResult)
    (acc : List Call)
    (hpre : ∀ s ∈ pre, s.status = "pending" ∨ s.status = "in-progress")
    (ht : t.status = "succeeded") :
    pollLoop statusOfModel msgOfModel path (pre ++ t :: post) acc =
      Except.ok (acc ++ (pre ++ [t]).map (fun _ => Call.pollQuery path), t) := by
  apply pollLoop_success
  · intro s hs
    have hss : statusOfModel s = s.status := rfl
    rcases hpre s hs with h | h <;> rw [hss, h] <;> exact ⟨by decide, by decide⟩
  · exact ht

/-- Witness for C5: the spec's example sequence
[in-progress(10), in-progress(55), succeeded] returns the succeeded
snapshot after exactly three queries. -/
theorem poll_loop_exits_at_first_terminal_witness :
    ((∀ s ∈ [progressSnapshot10, progressSnapshot55],
        s.status = "pending" ∨ s.status = "in-progress") ∧
      succSnapshot.status = "succeeded") ∧
    pollLoop statusOfModel msgOfModel "p"
        ([progressSnapshot10, progressSnapshot55] ++ succSnapshot :: []) [] =
      Except.ok (([] : List Call) ++
        ([progressSnapshot10, progressSnapshot55] ++ [succSnapshot]).map
          (fun _ => Call.pollQuery "p"), succSnapshot) :=
  ⟨⟨by decide, by decide⟩,
    poll_loop_exits_at_first_terminal "p" [progressSnapshot10, progressSnapshot55] []
      succSnapshot [] (by decide) (by decide)⟩

/-- C6: a poll sequence terminating in failed raises an error carrying the
vendor message when present ("bad mesh") and the generic "Meshy task
failed" otherwise; at the node level the text-to-model invocation then
returns that error, no result, and its trace contains no artifact
download. -/
theorem failed_poll_raises_vendor_message
    (path : String) (pre post : List MeshyModelResult) (t : MeshyModelResult)
    (acc : List Call) (resp : MeshyTaskResponse) (dir model prompt style sym pm : String)
    (sr : InputShouldRemesh) (seed : Int)
    (hpre : ∀ s ∈ pre, s.status = "pending" ∨ s.status = "in-progress")
    (ht : t.status = "failed") (hmsg : msgOfModel t = some "bad mesh")
    (hp1 : prompt ≠ "") (hp6 : prompt.length ≤ 600)
    (hpc : inRangeOpt 100 300000 sr.target_polycount = true) :
    pollLoop statusOfModel msgOfModel path (pre ++ t :: post) acc =
      Except.error ("bad mesh", acc ++ (pre ++ [t]).map (fun _ => Call.pollQuery path)) ∧
    (∀ t2 : MeshyModelResult, t2.status = "failed" → msgOfModel t2 = none →
      pollLoop statusOfModel msgOfModel path (pre ++ t2 :: post) acc =
        Except.error ("Meshy task failed",
          acc ++ (pre ++ [t2]).map (fun _ => Call.pollQuery path))) ∧
    (∃ tr, MeshyTextToModelNode.execute resp (pre ++ t :: post) dir model prompt style sr
        sym pm seed = Except.error ("bad mesh", tr) ∧ tr.all notDownload = true) := by
  have hpre2 : ∀ s ∈ pre, statusOfModel s ≠ "succeeded" ∧ statusOfModel s ≠ "failed" := by
    intro s hs
    have hss : statusOfModel s = s.status := rfl
    rcases hpre s hs with h | h <;> rw [hss, h] <;> exact ⟨by decide, by decide⟩
  refine ⟨?_, ?_, ?_⟩
  · have hfail := pollLoop_failure statusOfModel msgOfModel path pre post t acc hpre2 ht
    rw [hmsg] at hfail
    simpa using hfail
  · intro t2 h2 hm2
    have hfail := pollLoop_failure statusOfModel msgOfModel path pre post t2 acc hpre2 h2
    rw [hm2] at hfail
    simpa using hfail
  · have hval : validate_string prompt "prompt" 1 600 = Except.ok () := by
      have h0 := string_length_ne_zero prompt hp1
      unfold validate_string
      rw [if_neg (by omega), if_neg (by omega)]
    have h601 : ¬ prompt.length > 600 := by omega
    have hmk : mkMeshyTextToModelRequest prompt style model sr.topology sr.target_polycount
        (decide (sr.should_remesh = "true")) sym (pyLower pm) seed =
        Except.ok ⟨"preview", prompt, style, model, sr.topology, sr.target_polycount,
          decide (sr.should_remesh = "true"), sym, pyLower pm, seed, false⟩ := by
      unfold mkMeshyTextToModelRequest
      rw [if_neg h601, if_pos hpc]
    have hfail := pollLoop_failure statusOfModel msgOfModel
      ("/proxy/meshy/openapi/v2/text-to-3d/" ++ resp.result) pre post t
      [Call.submit "/proxy/meshy/openapi/v2/text-to-3d" (RequestBody.textToModel
        ⟨"preview", prompt, style, model, sr.topology, sr.target_polycount,
          decide (sr.should_remesh = "true"), sym, pyLower pm, seed, false⟩)] hpre2 ht
    rw [hmsg] at hfail
    refine ⟨[Call.submit "/proxy/meshy/openapi/v2/text-to-3d" (RequestBody.textToModel
        ⟨"preview", prompt, style, model, sr.topology, sr.target_polycount,
          decide (sr.should_remesh = "true"), sym, pyLower pm, seed, false⟩)] ++
      (pre ++ [t]).map (fun _ =>
        Call.pollQuery ("/proxy/meshy/openapi/v2/text-to-3d/" ++ resp.result)), ?_, ?_⟩
    · simp only [MeshyTextToModelNode.execute, hval, hmk, hfail]
      rfl
    · simp [List.all_append, List.all_map, notDownload, Function.comp]

/-- Witness for C6: the concrete sequence [in-progress(10), failed("bad
mesh")] raises "bad mesh" from the poll loop and from the node. -/
theorem failed_poll_raises_vendor_message_witness :
    ((∀ s ∈ [progressSnapshot10], s.status = "pending" ∨ s.status = "in-progress") ∧
      failedSnapshot.status = "failed" ∧ msgOfModel failedSnapshot = some "bad mesh" ∧
      ("a red chair" : String) ≠ "" ∧ ("a red chair" : String).length ≤ 600 ∧
      inRangeOpt 100 300000 (InputShouldRemesh.mk "false" none none).target_polycount =
        true) ∧
    pollLoop statusOfModel msgOfModel "p" ([progressSnapshot10] ++ failedSnapshot :: []) [] =
      Except.error ("bad mesh", ([] : List Call) ++
        ([progressSnapshot10] ++ [failedSnapshot]).map (fun _ => Call.pollQuery "p")) :=
  ⟨⟨by decide, by decide, by decide, by decide, by decide, by decide⟩,
    (failed_poll_raises_vendor_message "p" [progressSnapshot10] [] failedSnapshot []
      ⟨"h1"⟩ "/out" "latest" "a red chair" "realistic" "auto" ""
      ⟨"false", none, none⟩ 0 (by decide) (by decide) (by decide) (by decide) (by decide)
      (by decide)).1⟩

/-- C7: on a successful run the artifact is downloaded to the output
directory joined with the filename meshy_model_(job handle).glb, where the
handle is exactly the string returned by the submission call, and that
filename is the node's first output (shown for the text-to-model and rig
nodes). -/
theorem artifact_filename_convention
    (resp : MeshyTaskResponse) (snaps : List MeshyModelResult)
    (rsnaps : List MeshyRiggedResult) (u : Image → String)
    (dir model prompt style sym pm dir2 tid : String) (sr : InputShouldRemesh) (seed : Int)
    (hm : ℚ) (timg : Option Image) :
    (∀ tr out, MeshyTextToModelNode.execute resp snaps dir model prompt style sr sym pm
        seed = Except.ok (tr, out) →
      out.model_file = "meshy_model_" ++ resp.result ++ ".glb" ∧
      out.task_id = resp.result ∧
      ∃ url, Call.download url (dir ++ "/" ++ out.model_file) ∈ tr) ∧
    (∀ tr out, MeshyRigModelNode.execute u resp rsnaps dir2 tid hm timg =
        Except.ok (tr, out) →
      out.model_file = "meshy_model_" ++ resp.result ++ ".glb" ∧
      out.task_id = resp.result ∧
      ∃ url, Call.download url (dir2 ++ "/" ++ out.model_file) ∈ tr) := by
  constructor
  · intro tr out h
    simp only [MeshyTextToModelNode.execute] at h
    split at h
    · cases h
    split at h
    · cases h
    split at h
    · cases h
    rename_i pTrace result hpoll
    cases h
    exact ⟨rfl, rfl, ⟨result.model_urls.glb, by simp⟩⟩
  · intro tr out h
    simp only [MeshyRigModelNode.execute] at h
    split at h
    · cases h
    rename_i pTrace result hpoll
    cases h
    exact ⟨rfl, rfl, ⟨result.result.rigged_character_glb_url, by simp⟩⟩

/-- Witness for C7: a concrete successful text-to-model run writes and
returns meshy_model_h1.glb. -/
theorem artifact_filename_convention_witness :
    (NodeOutput.mk "meshy_model_h1.glb" "h1").model_file =
      "meshy_model_" ++ (MeshyTaskResponse.mk "h1").result ++ ".glb" ∧
    (NodeOutput.mk "meshy_model_h1.glb" "h1").task_id = (MeshyTaskResponse.mk "h1").result ∧
    ∃ url, Call.download url
        ("/out" ++ "/" ++ (NodeOutput.mk "meshy_model_h1.glb" "h1").model_file) ∈
      [Call.submit "/proxy/meshy/openapi/v2/text-to-3d" (RequestBody.textToModel
        ⟨"preview", "a red chair", "realistic", "latest", none, none, false, "auto", "",
          0, false⟩),
       Call.pollQuery "/proxy/meshy/openapi/v2/text-to-3d/h1",
       Call.download "http://example.com/a.glb" "/out/meshy_model_h1.glb"] :=
  (artifact_filename_convention ⟨"h1"⟩ [succSnapshot] [] (fun _ => "u") "/out" "latest"
    "a red chair" "realistic" "auto" "" "/out" "tid" ⟨"false", none, none⟩ 0 1 none).1
    _ _ rfl

/-- C3: every numeric bounded field's declared widget bounds reject any
value outside the declared closed interval before the node runs:
target_polycount outside [100, 300000] (also rejected again by the pydantic
request model), height_meters outside [1/10, 15], seed outside
[0, 2147483647], and action_id outside [0, 696]. -/
theorem numeric_bounds_reject_out_of_interval
    (pc sd aid : Int) (hq : ℚ)
    (hpc : pc < 100 ∨ 300000 < pc) (hh : hq < 1/10 ∨ 15 < hq)
    (hsd : sd < 0 ∨ 2147483647 < sd) (haid : aid < 0 ∨ 696 < aid) :
    widgetIntAccepts targetPolycountBounds pc = false ∧
    (∀ prompt style model topo b sym pm s r,
      mkMeshyTextToModelRequest prompt style model topo (some pc) b sym pm s ≠
        Except.ok r) ∧
    widgetFloatAccepts heightMetersBounds hq = false ∧
    widgetIntAccepts seedBounds sd = false ∧
    widgetIntAccepts actionIdBounds aid = false := by
  refine ⟨?_, ?_, ?_, ?_, ?_⟩
  · simp only [widgetIntAccepts, targetPolycountBounds, Bool.and_eq_false_iff,
      decide_eq_false_iff_not, not_le]
    omega
  · intro prompt style model topo b sym pm s r hok
    unfold mkMeshyTextToModelRequest at hok
    split at hok
    · cases hok
    · split at hok
      · rename_i hcond
        simp only [inRangeOpt, Bool.and_eq_true, decide_eq_true_eq] at hcond
        omega
      · cases hok
  · rcases hh with h | h <;>
      simp only [widgetFloatAccepts, heightMetersBounds, Bool.and_eq_false_iff,
        decide_eq_false_iff_not, not_le]
    · exact Or.inl h
    · exact Or.inr h
  · simp only [widgetIntAccepts, seedBounds, Bool.and_eq_false_iff,
      decide_eq_false_iff_not, not_le]
    omega
  · simp only [widgetIntAccepts, actionIdBounds, Bool.and_eq_false_iff,
      decide_eq_false_iff_not, not_le]
    omega

/-- Witness for C3 at concrete out-of-range values 99, 16, -1, 697. -/
theorem numeric_bounds_reject_out_of_interval_witness :
    (((99 : Int) < 100 ∨ (300000 : Int) < 99) ∧
      ((16 : ℚ) < 1/10 ∨ (15 : ℚ) < 16) ∧
      ((-1 : Int) < 0 ∨ (2147483647 : Int) < -1) ∧
      ((697 : Int) < 0 ∨ (696 : Int) < 697)) ∧
    (widgetIntAccepts targetPolycountBounds 99 = false ∧
      (∀ prompt style model topo b sym pm s r,
        mkMeshyTextToModelRequest prompt style model topo (some 99) b sym pm s ≠
          Except.ok r) ∧
      widgetFloatAccepts heightMetersBounds 16 = false ∧
      widgetIntAccepts seedBounds (-1) = false ∧
      widgetIntAccepts actionIdBounds 697 = false) :=
  ⟨⟨Or.inl (by norm_num), Or.inr (by norm_num), Or.inl (by norm_num),
      Or.inr (by norm_num)⟩,
    numeric_bounds_reject_out_of_interval 99 (-1) 697 16 (Or.inl (by norm_num))
      (Or.inr (by norm_num)) (Or.inl (by norm_num)) (Or.inr (by norm_num))⟩

/-- The 601-character style prompt exhibiting the missing length check on
the retexture node. -/
def longStylePrompt : String := String.mk (List.replicate 601 'a')

set_option maxRecDepth 4000 in
/-- C4 (failing part): the retexture node applies no 600-character cap to
text_style_prompt although its own tooltip documents "Maximum 600
characters": a 601-character style prompt raises no validation error, the
request is built carrying it, submitted, and the run completes. -/
theorem texture_style_prompt_cap_unenforced :
    longStylePrompt.length = 601 ∧
    MeshyTextureNode.execute (fun _ => "u") ⟨"h1"⟩ [succSnapshot] "/out" "latest" "tid"
      true false longStylePrompt none =
    Except.ok ([Call.submit "/proxy/meshy/openapi/v1/retexture"
        (RequestBody.texture ⟨"tid", "latest", true, false, some longStylePrompt, none⟩),
      Call.pollQuery "/proxy/meshy/openapi/v1/retexture/h1",
      Call.download "http://example.com/a.glb" "/out/meshy_model_h1.glb"],
      ⟨"meshy_model_h1.glb", "h1"⟩) :=
  ⟨rfl, rfl⟩

end Meshy
